import Mathlib

/-!
# Verification of `folium_offline`

A shallow embedding of the two scripts of the repository
(`src/folium_offline.py` and `src/build_simple_server.py`) together with
theorems settling the specification claims.

The mutable library state touched by `folium_offline.py` — the module-level
lists `folium.folium._default_js` and `folium.folium._default_css` and the
class attribute `folium.raster_layers.TileLayer._template` — is modelled as
an explicit record `FoliumState`; each configuration function becomes a pure
state transformer. `os.path.join` (POSIX, two arguments) is modelled as a
pure string function, exactly as `posixpath.join` computes it; the source
performs no other filesystem interaction, so the embedding takes no
filesystem parameter.
-/

/-- Whether a string starts with the POSIX path separator. -/
def starts_with_sep (s : String) : Bool :=
  match s.data with
  | [] => false
  | c :: _ => c = '/'

/-- Whether a string ends with the POSIX path separator. -/
def ends_with_sep (s : String) : Bool :=
  match s.data.getLast? with
  | some c => c = '/'
  | none => false

/-- POSIX `os.path.join(a, b)`: if `b` is absolute it wins; otherwise the
separator is inserted unless `a` is empty or already ends in one. -/
def os_path_join (a b : String) : String :=
  if starts_with_sep b then b
  else if a.data.isEmpty || ends_with_sep a then a ++ b
  else a ++ "/" ++ b

/-- A piece of the Jinja2 macro body of `TileLayer._template`: either literal
text or one of the placeholders that appear in the template set by
`set_mbtiles` (`this.get_name()`, `this.tiles|tojson`, `this.options|tojson`,
`this._parent.get_name()`). -/
inductive TChunk where
  | lit (s : String)
  | this_name
  | this_tiles
  | this_options
  | parent_name
deriving DecidableEq, Repr

/-- Render one template chunk against concrete values for the placeholders. -/
def renderChunk (name tiles options parent : String) : TChunk → String
  | .lit s => s
  | .this_name => name
  | .this_tiles => tiles
  | .this_options => options
  | .parent_name => parent

/-- Render the `script` macro of a tile-layer template: concatenate the
rendered chunks. -/
def renderScript (name tiles options parent : String) : List TChunk → String
  | [] => ""
  | c :: cs => renderChunk name tiles options parent c
      ++ renderScript name tiles options parent cs

/-- The template installed by `set_mbtiles` (source lines 120–127): the body
of its `script` macro, literal text split around the four placeholders.  The
rendered output is
`var <name> = L.tileLayer.mbTiles(<tiles>, <options>).addTo(<parent>);`
with the source's whitespace. -/
def mbtiles_template : List TChunk :=
  [ .lit "\n            var ",
    .this_name,
    .lit " = L.tileLayer.mbTiles(\n                ",
    .this_tiles,
    .lit ",\n                ",
    .this_options,
    .lit "\n            ).addTo(",
    .parent_name,
    .lit ");\n        " ]

/-- The mutable `folium` library state that `folium_offline.py` reassigns:
the two module-level asset lists of `(name, path-or-URL)` pairs and the
tile-layer template. -/
structure FoliumState where
  _default_js : List (String × String)
  _default_css : List (String × String)
  TileLayer_template : List TChunk
deriving DecidableEq, Repr

/-- `set_offline(file_path)` (source lines 38–84): overwrite both asset
lists with local paths under `file_path`. -/
def set_offline (file_path : String) (st : FoliumState) : FoliumState :=
  { st with
    _default_js := [
      ("leaflet", os_path_join file_path "leaflet.js"),
      ("jquery", os_path_join file_path "jquery-1.12.4.min.js"),
      ("bootstrap", os_path_join file_path "bootstrap.min.js"),
      ("awesome_markers", os_path_join file_path "leaflet.awesome-markers.js"),
      ("sql", os_path_join file_path "sql.js"),
      ("sql-wasm", os_path_join file_path "sql-wasm.js"),
      ("sql-asm", os_path_join file_path "sql-adm.js"),
      ("mbtiles", os_path_join file_path "Leaflet.TileLayer.MBTiles.js")
    ],
    _default_css := [
      ("leaflet_css", os_path_join file_path "leaflet.css"),
      ("bootstrap_css", os_path_join file_path "bootstrap.min.css"),
      ("bootstrap_theme_css", os_path_join file_path "bootstrap-theme.min.css"),
      ("awesome_markers_font_css", os_path_join file_path "font-awesome.min.css"),
      ("awesome_markers_css", os_path_join file_path "leaflet.awesome-markers.css"),
      ("awesome_rotate_css", os_path_join file_path "leaflet.awesome.rotate.css")
    ] }

/-- `set_online(file_path)` (source lines 87–106): overwrite the JavaScript
asset list with remote URLs, keeping the `mbtiles` entry local.  The source
assigns only `folium.folium._default_js`; the CSS list is not touched. -/
def set_online (file_path : String) (st : FoliumState) : FoliumState :=
  { st with
    _default_js := [
      ("leaflet", "https://cdn.jsdelivr.net/npm/leaflet@1.5.1/dist/leaflet.js"),
      ("jquery", "https://code.jquery.com/jquery-1.12.4.min.js"),
      ("bootstrap", "https://maxcdn.bootstrapcdn.com/bootstrap/3.2.0/js/bootstrap.min.js"),
      ("awesome_markers", "https://cdnjs.cloudflare.com/ajax/libs/Leaflet.awesome-markers/2.0.2/leaflet.awesome-markers.js"),
      ("sql", "https://unpkg.com/sql.js@0.3.2/js/sql.js"),
      ("mbtiles", os_path_join file_path "Leaflet.TileLayer.MBTiles.js")
    ] }

/-- `set_mbtiles()` (source lines 109–127): replace
`folium.raster_layers.TileLayer._template` with the `L.tileLayer.mbTiles`
template. -/
def set_mbtiles (st : FoliumState) : FoliumState :=
  { st with TileLayer_template := mbtiles_template }

/-- The arguments `main` passes to `folium.Map` (source lines 168–176). -/
structure MapObj where
  location : Rat × Rat
  tiles : String
  attr : String
  min_zoom : Nat
  max_zoom : Nat
  zoom_start : Nat
  control_scale : Bool
deriving Repr

/-- Modelled from the spec: Jinja2's `tojson` filter on a plain string
(`folium`/Jinja2 library code, not under `src/`): the string is emitted in
double quotes.  None of the strings `main` feeds it contain characters
requiring JSON escaping. -/
def tojson_string (s : String) : String :=
  "\"" ++ s ++ "\""

/-- Modelled from the spec: the JSON rendering of the tile-layer `options`
dict that `folium.TileLayer` (library code, not under `src/`) builds from the
`Map` arguments; it carries the zoom bounds and the attribution string. -/
def map_options_json (m : MapObj) : String :=
  "\x7b\"minZoom\": " ++ toString m.min_zoom
    ++ ", \"maxZoom\": " ++ toString m.max_zoom
    ++ ", \"attribution\": " ++ tojson_string m.attr ++ "\x7d"

/-- Modelled from the spec: `folium.Map(...)` followed by `m.save(filename)`
is third-party library code not under `src/`.  Per the spec (§6, §8) saving
writes one HTML file at the given name whose content references the
configured CSS and JavaScript assets and embeds the rendered tile-layer
script — the tile source string via the template's `this.tiles|tojson`
placeholder and the attribution via the options.  The result is the
`(filename, content)` pair written. -/
def map_save (st : FoliumState) (m : MapObj) (filename : String) :
    String × String :=
  (filename,
    String.join (st._default_css.map
      (fun e => "<link rel=\"stylesheet\" href=\"" ++ e.2 ++ "\"/>"))
    ++ String.join (st._default_js.map
      (fun e => "<script src=\"" ++ e.2 ++ "\"></script>"))
    ++ renderScript "tile_layer_1" (tojson_string m.tiles)
        (map_options_json m) "map_1" st.TileLayer_template)

/-- `main()` (source lines 130–180), starting from an arbitrary library
state `st`: with the fixed configuration (`offline = True`,
`offline_file_path = 'offline'`, `data_file_path = 'data'`,
`mbtiles = True`, `tile_set = 'your_tiles.mbtiles'`) it applies
`set_offline` and `set_mbtiles`, builds the `folium.Map`, and saves
`index.html`.  The result is the list of files written. -/
def folium_offline_main (st : FoliumState) : List (String × String) :=
  let offline := true
  let offline_file_path := "offline"
  let data_file_path := "data"
  let mbtiles := true
  let tile_set := "your_tiles.mbtiles"
  let tile_path := os_path_join (os_path_join data_file_path "tiles") tile_set
  let attr := "e.g. OpenStreetMap contributors"
  let st1 := if offline then set_offline offline_file_path st
             else set_online offline_file_path st
  let st2 := if mbtiles then set_mbtiles st1 else st1
  let m : MapObj := {
    location := ((33718651 : Rat) / 1000000, -((116218178 : Rat) / 1000000)),
    tiles := tile_path,
    attr := attr,
    min_zoom := 0,
    max_zoom := 16,
    zoom_start := 4,
    control_scale := true }
  [map_save st2 m "index.html"]

/-- `build_simple_server.py` (source lines 8–10): the script issues exactly
one external command, `subprocess.call(["pyinstaller", "--clean",
"--onefile", "server.py"])`, and discards its return value.  `exitCode` is
whatever status the external tool reports; the script's observable behavior
— the list of commands issued — is returned. -/
def build_simple_server (exitCode : Int) : List (List String) :=
  let _ := exitCode
  [["pyinstaller", "--clean", "--onefile", "server.py"]]

/-! ## Theorems -/

/-- Helper: an infix of `r` is an infix of `l ++ r`. -/
theorem isInfix_append_right {α : Type} {x r : List α} (l : List α)
    (h : x <:+: r) : x <:+: l ++ r :=
  h.trans (List.suffix_append l r).isInfix

/-- Helper: an infix of `l` is an infix of `l ++ r`. -/
theorem isInfix_append_left {α : Type} {x l : List α} (r : List α)
    (h : x <:+: l) : x <:+: l ++ r :=
  h.trans (List.prefix_append l r).isInfix

/-- Helper: the `this.tiles|tojson` placeholder value occurs verbatim in the
script rendered from the mbtiles template. -/
theorem renderScript_mbtiles_has_tiles (name tiles options parent : String) :
    tiles.data <:+:
      (renderScript name tiles options parent mbtiles_template).data := by
  simp only [mbtiles_template, renderScript, renderChunk, String.data_append]
  apply isInfix_append_right
  apply isInfix_append_right
  apply isInfix_append_right
  apply isInfix_append_left
  exact List.infix_refl _

/-- Helper: the `this.options|tojson` placeholder value occurs verbatim in
the script rendered from the mbtiles template. -/
theorem renderScript_mbtiles_has_options (name tiles options parent : String) :
    options.data <:+:
      (renderScript name tiles options parent mbtiles_template).data := by
  simp only [mbtiles_template, renderScript, renderChunk, String.data_append]
  apply isInfix_append_right
  apply isInfix_append_right
  apply isInfix_append_right
  apply isInfix_append_right
  apply isInfix_append_right
  apply isInfix_append_left
  exact List.infix_refl _

/-- Helper: a string occurs in its own JSON rendering. -/
theorem tojson_string_has (s : String) : s.data <:+: (tojson_string s).data := by
  simp only [tojson_string, String.data_append]
  apply isInfix_append_left
  apply isInfix_append_right
  exact List.infix_refl _

/-- Helper: the attribution string occurs in the rendered options JSON. -/
theorem map_options_json_has_attr (m : MapObj) :
    m.attr.data <:+: (map_options_json m).data := by
  simp only [map_options_json, String.data_append]
  apply isInfix_append_left
  apply isInfix_append_right
  exact tojson_string_has m.attr

/-- Helper: with the mbtiles template installed, the file saved by
`map_save` contains both the map's tile source string and its attribution
string. -/
theorem map_save_mbtiles_has (js css : List (String × String)) (m : MapObj)
    (filename : String) :
    m.tiles.data <:+: (map_save ⟨js, css, mbtiles_template⟩ m filename).2.data
    ∧ m.attr.data
      <:+: (map_save ⟨js, css, mbtiles_template⟩ m filename).2.data := by
  constructor
  · simp only [map_save, String.data_append]
    apply isInfix_append_right
    exact (tojson_string_has m.tiles).trans
      (renderScript_mbtiles_has_tiles "tile_layer_1" (tojson_string m.tiles)
        (map_options_json m) "map_1")
  · simp only [map_save, String.data_append]
    apply isInfix_append_right
    exact (map_options_json_has_attr m).trans
      (renderScript_mbtiles_has_options "tile_layer_1" (tojson_string m.tiles)
        (map_options_json m) "map_1")

/-- C1: `set_offline(file_path)` sets `_default_js` to exactly the eight
named entries and `_default_css` to exactly the six named entries, in order,
each path being the join of `file_path` with that entry's fixed filename. -/
theorem set_offline_sets_expected_lists (file_path : String) (st : FoliumState) :
    (set_offline file_path st)._default_js = [
      ("leaflet", os_path_join file_path "leaflet.js"),
      ("jquery", os_path_join file_path "jquery-1.12.4.min.js"),
      ("bootstrap", os_path_join file_path "bootstrap.min.js"),
      ("awesome_markers", os_path_join file_path "leaflet.awesome-markers.js"),
      ("sql", os_path_join file_path "sql.js"),
      ("sql-wasm", os_path_join file_path "sql-wasm.js"),
      ("sql-asm", os_path_join file_path "sql-adm.js"),
      ("mbtiles", os_path_join file_path "Leaflet.TileLayer.MBTiles.js")]
    ∧ (set_offline file_path st)._default_css = [
      ("leaflet_css", os_path_join file_path "leaflet.css"),
      ("bootstrap_css", os_path_join file_path "bootstrap.min.css"),
      ("bootstrap_theme_css", os_path_join file_path "bootstrap-theme.min.css"),
      ("awesome_markers_font_css", os_path_join file_path "font-awesome.min.css"),
      ("awesome_markers_css", os_path_join file_path "leaflet.awesome-markers.css"),
      ("awesome_rotate_css", os_path_join file_path "leaflet.awesome.rotate.css")] :=
  ⟨rfl, rfl⟩

/-- C8: `set_online` leaves `_default_css` unchanged — it assigns only the
JavaScript list, so whatever CSS list was in effect before remains. -/
theorem set_online_preserves_css (file_path : String) (st : FoliumState) :
    (set_online file_path st)._default_css = st._default_css :=
  rfl

/-- C2 counterexample: `set_online` does **not** set the CSS list.  After
`set_offline "offline"` the CSS list holds local paths; a subsequent
`set_online "offline"` leaves it holding the local path
`offline/leaflet.css` for `leaflet_css`, which is not a remote URL, so
`set_online` did not set `folium.folium._default_css` to remote-URL
entries. -/
theorem set_online_css_counterexample :
    ((set_online "offline" (set_offline "offline"
        ⟨[], [], []⟩))._default_css.lookup "leaflet_css"
      = some "offline/leaflet.css")
    ∧ ¬ ("https://".data.IsPrefix "offline/leaflet.css".data) := by
  constructor
  · decide
  · decide

/-- C2 (amended): `set_online(file_path)` sets only the JavaScript list, to
the six fixed entries — five remote URLs plus the local `mbtiles` entry at
`os.path.join(file_path, "Leaflet.TileLayer.MBTiles.js")` — and leaves the
CSS list unchanged. -/
theorem set_online_sets_js_only (file_path : String) (st : FoliumState) :
    (set_online file_path st)._default_js = [
      ("leaflet", "https://cdn.jsdelivr.net/npm/leaflet@1.5.1/dist/leaflet.js"),
      ("jquery", "https://code.jquery.com/jquery-1.12.4.min.js"),
      ("bootstrap", "https://maxcdn.bootstrapcdn.com/bootstrap/3.2.0/js/bootstrap.min.js"),
      ("awesome_markers", "https://cdnjs.cloudflare.com/ajax/libs/Leaflet.awesome-markers/2.0.2/leaflet.awesome-markers.js"),
      ("sql", "https://unpkg.com/sql.js@0.3.2/js/sql.js"),
      ("mbtiles", os_path_join file_path "Leaflet.TileLayer.MBTiles.js")]
    ∧ (set_online file_path st)._default_css = st._default_css :=
  ⟨rfl, rfl⟩

/-- C5: for every `file_path` — in particular one naming no existing file or
directory — `set_offline` and `set_online` return normally with the fully
determined configured state.  Faithful to the source, the embedding takes no
filesystem argument at all: neither function performs any filesystem access
(`os.path.join` is pure string manipulation), so no existence check can fail
and no exception is raised at configuration time. -/
theorem set_offline_set_online_total (file_path : String) (st : FoliumState) :
    set_offline file_path st
      = ⟨(set_offline file_path ⟨[], [], []⟩)._default_js,
         (set_offline file_path ⟨[], [], []⟩)._default_css,
         st.TileLayer_template⟩
    ∧ set_online file_path st
      = ⟨(set_online file_path ⟨[], [], []⟩)._default_js,
         st._default_css, st.TileLayer_template⟩ :=
  ⟨rfl, rfl⟩

/-- C6: `set_offline` overwrites the asset lists wholesale.  The resulting
lists do not depend on the prior values; `set_offline` is idempotent; and
running it after `set_online` with the same path gives exactly the state of
running it alone. -/
theorem set_offline_overwrites_wholesale (file_path : String)
    (st st' : FoliumState) :
    ((set_offline file_path st)._default_js
        = (set_offline file_path st')._default_js
      ∧ (set_offline file_path st)._default_css
        = (set_offline file_path st')._default_css)
    ∧ set_offline file_path (set_offline file_path st)
        = set_offline file_path st
    ∧ set_offline file_path (set_online file_path st)
        = set_offline file_path st :=
  ⟨⟨rfl, rfl⟩, rfl, rfl⟩

/-- C9: the `sql-asm` entry of the offline JavaScript list points at the
file `sql-adm.js` — the entry's name and the file's basename differ
(`sql-adm.js`, not `sql-asm.js`). -/
theorem set_offline_sql_asm_filename (file_path : String) (st : FoliumState) :
    (set_offline file_path st)._default_js.lookup "sql-asm"
      = some (os_path_join file_path "sql-adm.js")
    ∧ ("sql-adm.js" : String) ≠ "sql-asm.js" := by
  refine ⟨?_, by decide⟩
  rfl

/-- C10: `set_mbtiles` modifies only the tile-layer template: both asset
lists are untouched, the template becomes `mbtiles_template`, and the
override commutes with either asset-list configuration. -/
theorem set_mbtiles_only_template (file_path : String) (st : FoliumState) :
    (set_mbtiles st)._default_js = st._default_js
    ∧ (set_mbtiles st)._default_css = st._default_css
    ∧ (set_mbtiles st).TileLayer_template = mbtiles_template
    ∧ set_mbtiles (set_offline file_path st)
        = set_offline file_path (set_mbtiles st)
    ∧ set_mbtiles (set_online file_path st)
        = set_online file_path (set_mbtiles st) :=
  ⟨rfl, rfl, rfl, rfl, rfl⟩

/-- C4: after `set_mbtiles`, rendering the tile-layer template's script
macro against any map/layer object (any layer name, tile source, options and
parent name) yields output containing the alternate constructor name
`L.tileLayer.mbTiles`. -/
theorem set_mbtiles_renders_mbTiles (st : FoliumState)
    (name tiles options parent : String) :
    "L.tileLayer.mbTiles".data <:+:
      (renderScript name tiles options parent
        (set_mbtiles st).TileLayer_template).data := by
  show "L.tileLayer.mbTiles".data <:+:
    (renderScript name tiles options parent mbtiles_template).data
  simp only [mbtiles_template, renderScript, renderChunk, String.data_append]
  apply isInfix_append_right
  apply isInfix_append_right
  apply isInfix_append_left
  decide

/-- C7: the packaging script issues exactly one external command, with the
fixed argument list `["pyinstaller", "--clean", "--onefile", "server.py"]`
whose entry point is `server.py`, and its behavior does not depend on the
exit status the external tool reports. -/
theorem build_simple_server_fixed_call (e e' : Int) :
    build_simple_server e
      = [["pyinstaller", "--clean", "--onefile", "server.py"]]
    ∧ build_simple_server e = build_simple_server e'
    ∧ (build_simple_server e).length = 1
    ∧ (["pyinstaller", "--clean", "--onefile", "server.py"] :
        List String).getLast? = some "server.py" :=
  ⟨rfl, rfl, rfl, rfl⟩

set_option maxRecDepth 4000 in
/-- C3: `main()`, from any initial library state, writes exactly one file,
named `index.html`, whose content contains the tile path
`data/tiles/your_tiles.mbtiles` and the attribution
`e.g. OpenStreetMap contributors`. -/
theorem main_writes_single_index_html (st : FoliumState) :
    ∃ content : String,
      folium_offline_main st = [("index.html", content)]
      ∧ "data/tiles/your_tiles.mbtiles".data <:+: content.data
      ∧ "e.g. OpenStreetMap contributors".data <:+: content.data := by
  refine ⟨_, rfl, ?_, ?_⟩
  · exact (map_save_mbtiles_has
      (set_offline "offline" st)._default_js
      (set_offline "offline" st)._default_css
      ⟨((33718651 : Rat) / 1000000, -((116218178 : Rat) / 1000000)),
        os_path_join (os_path_join "data" "tiles") "your_tiles.mbtiles",
        "e.g. OpenStreetMap contributors", 0, 16, 4, true⟩
      "index.html").1
  · exact (map_save_mbtiles_has
      (set_offline "offline" st)._default_js
      (set_offline "offline" st)._default_css
      ⟨((33718651 : Rat) / 1000000, -((116218178 : Rat) / 1000000)),
        os_path_join (os_path_join "data" "tiles") "your_tiles.mbtiles",
        "e.g. OpenStreetMap contributors", 0, 16, 4, true⟩
      "index.html").2
